import Mathlib

/-!
Shallow embedding of the adp-kpi-monitoring repository (src/main.py,
src/handlers.py, src/api.py) and proofs about its behaviour.

Conventions of the embedding:
  * Python strings are Lean String, Python numbers that matter to the
    claims are Rat (wall-clock durations, utilisation percentages,
    thresholds), machine effects (network probes, SSH sessions, the
    system clock) are supplied through explicit world records.
  * Python dicts that are used in insertion order (the aggregate result
    dict, the simulated file system) are association lists.
  * Fallible Python code is embedded as Except PyError.
-/

namespace AdpKpi

/-- Decides whether the first character list is a prefix of the second. -/
def isPrefixL : List Char → List Char → Bool
  | [], _ => true
  | _ :: _, [] => false
  | a :: as, b :: bs => a == b && isPrefixL as bs

/-- Decides whether the first character list occurs as a contiguous
sublist of the second. -/
def substrL : List Char → List Char → Bool
  | a, [] => isPrefixL a []
  | a, b :: bs => isPrefixL a (b :: bs) || substrL a bs

/-- The Python expression a in b on two strings: substring containment.
src/main.py line 295 uses it on the literal string cpu ram disk_space. -/
def pyIn (a b : String) : Bool := substrL a.data b.data

/-- JSON values, the image of Python json.load / json.dumps. -/
inductive JVal where
  | null
  | bool (b : Bool)
  | num (q : Rat)
  | str (s : String)
  | arr (items : List JVal)
  | obj (members : List (String × JVal))

/-- The double-quote character. -/
def quoteChar : Char := Char.ofNat 34

/-- The backslash character. -/
def backslashChar : Char := Char.ofNat 92

/-- The opening curly bracket character. -/
def braceLChar : Char := Char.ofNat 123

/-- The closing curly bracket character. -/
def braceRChar : Char := Char.ofNat 125

/-- The opening square bracket character. -/
def brackLChar : Char := Char.ofNat 91

/-- The closing square bracket character. -/
def brackRChar : Char := Char.ofNat 93

/-- The comma character. -/
def commaChar : Char := Char.ofNat 44

/-- The colon character. -/
def colonChar : Char := Char.ofNat 58

/-- The full-stop character. -/
def dotChar : Char := Char.ofNat 46

/-- The minus character. -/
def minusChar : Char := Char.ofNat 45

/-- The plus character. -/
def plusChar : Char := Char.ofNat 43

/-- JSON insignificant whitespace. -/
def isWsChar (c : Char) : Bool := c = ' ' || c = '\n' || c = '\t' || c = '\r'

/-- Drops leading JSON whitespace. -/
def skipWs : List Char → List Char
  | [] => []
  | c :: cs => if isWsChar c then skipWs cs else c :: cs

/-- ASCII decimal digit test. -/
def isDigitCh (c : Char) : Bool := '0' ≤ c && c ≤ '9'

/-- Splits a character list into its leading digits and the rest. -/
def takeDigits : List Char → List Char × List Char
  | [] => ([], [])
  | c :: cs =>
    if isDigitCh c then
      let r := takeDigits cs
      (c :: r.1, r.2)
    else ([], c :: cs)

/-- Numeric value of a digit list. -/
def digitsToNat (ds : List Char) : Nat :=
  ds.foldl (fun acc c => acc * 10 + (c.toNat - 48)) 0

/-- Body of a JSON string after the opening quote.  Escape sequences are
validated (a backslash must be followed by some character) but kept raw,
which is enough for the validity questions asked here. -/
def parseStrAux : Nat → List Char → List Char → Option (String × List Char)
  | 0, _, _ => none
  | _ + 1, _, [] => none
  | fuel + 1, acc, c :: cs =>
    if c = quoteChar then some (String.mk acc.reverse, cs)
    else if c = backslashChar then
      match cs with
      | [] => none
      | e :: cs2 => parseStrAux fuel (e :: c :: acc) cs2
    else parseStrAux fuel (c :: acc) cs

/-- Optional fraction part of a JSON number. -/
def parseFrac (cs : List Char) : Option (Rat × List Char) :=
  match cs with
  | c :: rest =>
    if c = dotChar then
      let p := takeDigits rest
      if p.1.isEmpty then none
      else some ((digitsToNat p.1 : Rat) / ((10 : Rat) ^ p.1.length), p.2)
    else some (0, cs)
  | [] => some (0, [])

/-- Optional exponent part of a JSON number. -/
def parseExp (cs : List Char) : Option (Int × List Char) :=
  match cs with
  | c :: rest =>
    if c = 'e' || c = 'E' then
      let signed : Bool × List Char :=
        match rest with
        | d :: r2 => if d = plusChar then (false, r2) else if d = minusChar then (true, r2) else (false, d :: r2)
        | [] => (false, [])
      let p := takeDigits signed.2
      if p.1.isEmpty then none
      else some ((if signed.1 then -(digitsToNat p.1 : Int) else (digitsToNat p.1 : Int)), p.2)
    else some (0, cs)
  | [] => some (0, [])

/-- A JSON number. -/
def parseNumber (cs0 : List Char) : Option (Rat × List Char) :=
  let headSign : Bool × List Char :=
    match cs0 with
    | c :: rest => if c = minusChar then (true, rest) else (false, cs0)
    | [] => (false, [])
  let ipart := takeDigits headSign.2
  if ipart.1.isEmpty then none
  else
    match parseFrac ipart.2 with
    | none => none
    | some (f, cs3) =>
      match parseExp cs3 with
      | none => none
      | some (e, cs4) =>
        let v : Rat := ((digitsToNat ipart.1 : Rat) + f) * (10 : Rat) ^ e
        some ((if headSign.1 then -v else v), cs4)

mutual

/-- A JSON value, with fuel bounding the recursion depth. -/
def parseVal : Nat → List Char → Option (JVal × List Char)
  | 0, _ => none
  | fuel + 1, cs =>
    match skipWs cs with
    | [] => none
    | c :: rest =>
      if c = braceLChar then
        match skipWs rest with
        | c2 :: rest2 =>
          if c2 = braceRChar then some (.obj [], rest2)
          else parseObjMembers fuel (c2 :: rest2) []
        | [] => none
      else if c = brackLChar then
        match skipWs rest with
        | c2 :: rest2 =>
          if c2 = brackRChar then some (.arr [], rest2)
          else parseArrMembers fuel (c2 :: rest2) []
        | [] => none
      else if c = quoteChar then
        match parseStrAux fuel [] rest with
        | some (s, cs2) => some (.str s, cs2)
        | none => none
      else if isPrefixL ("true".data) (c :: rest) then some (.bool true, (c :: rest).drop 4)
      else if isPrefixL ("false".data) (c :: rest) then some (.bool false, (c :: rest).drop 5)
      else if isPrefixL ("null".data) (c :: rest) then some (.null, (c :: rest).drop 4)
      else
        match parseNumber (c :: rest) with
        | some (q, cs2) => some (.num q, cs2)
        | none => none

/-- The members of a JSON object after the opening bracket, first member
not yet consumed. -/
def parseObjMembers : Nat → List Char → List (String × JVal) → Option (JVal × List Char)
  | 0, _, _ => none
  | fuel + 1, cs, acc =>
    match skipWs cs with
    | c :: rest =>
      if c = quoteChar then
        match parseStrAux fuel [] rest with
        | some (k, cs2) =>
          match skipWs cs2 with
          | c3 :: cs3 =>
            if c3 = colonChar then
              match parseVal fuel cs3 with
              | some (v, cs4) =>
                match skipWs cs4 with
                | c5 :: cs5 =>
                  if c5 = commaChar then parseObjMembers fuel cs5 (acc ++ [(k, v)])
                  else if c5 = braceRChar then some (.obj (acc ++ [(k, v)]), cs5)
                  else none
                | [] => none
              | none => none
            else none
          | [] => none
        | none => none
      else none
    | [] => none

/-- The items of a JSON array after the opening bracket, first item not
yet consumed. -/
def parseArrMembers : Nat → List Char → List JVal → Option (JVal × List Char)
  | 0, _, _ => none
  | fuel + 1, cs, acc =>
    match parseVal fuel cs with
    | some (v, cs2) =>
      match skipWs cs2 with
      | c3 :: cs3 =>
        if c3 = commaChar then parseArrMembers fuel cs3 (acc ++ [v])
        else if c3 = brackRChar then some (.arr (acc ++ [v]), cs3)
        else none
      | [] => none
    | none => none

end

/-- Parses a complete JSON document, the behaviour of Python json.load. -/
def jsonParse (s : String) : Option JVal :=
  match parseVal (s.length * 4 + 16) s.data with
  | none => none
  | some (v, rest) => if (skipWs rest).isEmpty then some v else none

/-- Whether a string parses as a JSON document. -/
def isValidJson (s : String) : Bool := (jsonParse s).isSome

/-- One check entry of a server of config.servers: the dict with keys
name, type and the type-specific keys port (telnet) and service. -/
structure CheckConfig where
  name : String
  type : String
  port : Nat := 0
  service : String := ""
deriving DecidableEq

/-- One server entry of config.servers. -/
structure ServerConfig where
  name : String
  host : String
  user : String
  password : String
  checks : List CheckConfig
deriving DecidableEq

/-- The scalar configuration imported by src/main.py from config.py:
the global response_time_limit, the per-check-name resourse_limits dict
(spelling from the source), and the alert chat ids. -/
structure Config where
  response_time_limit : Rat
  resourse_limits : List (String × Rat)
  chats : List Int

/-- Behaviour of one transport-layer connection attempt, as observed by
telnetlib.Telnet with a timeout: the connection completes after a delay,
fails (refused) after a delay, or never completes so that the timeout
expires. -/
inductive ConnectBehavior where
  | completesAt (t : Rat)
  | failsAt (t : Rat)
  | never
deriving DecidableEq

/-- Outcome of telnetlib.Telnet(host, port, timeout): whether the
constructor returned (rather than raised) and the wall-clock time that
elapsed before it returned or raised.  A connection that never completes
raises the timeout error once the timeout has elapsed. -/
def telnetAttempt (timeout : Rat) : ConnectBehavior → Bool × Rat
  | .completesAt t => if t < timeout then (true, t) else (false, timeout)
  | .failsAt t => if t < timeout then (false, t) else (false, timeout)
  | .never => (false, timeout)

/-- The environment a check execution observes: ping replies and the
parsed time= field of the ping output, transport connection behaviour
per (host, port), the stripped stdout of systemctl is-active over SSH
(none when connecting or executing raises), and the psutil readings. -/
structure World where
  ping : String → Bool
  pingTime : String → Option Rat
  telnet : String → Nat → ConnectBehavior
  sshService : String → String → Option String
  cpuLoad1 : Rat
  cpuCount : Rat
  ramPercent : Rat
  diskPercent : String → Rat

/-- The monitor object constructed by CheckManager.run_check, one
constructor per IMonitorStrategy subclass in src/main.py. -/
inductive Monitor where
  | serverPing (host : String)
  | telnet (host : String) (port : Nat)
  | service (hostname : String) (port : Nat) (username password service_name : String)
  | cpu
  | ram
  | disk (disk : String)
deriving DecidableEq

/-- The check() method of each monitor class.
ServerPingMonitor.check: ping -c 1 returncode is zero.
TelnetMonitor.check: the connection attempt (timeout 10) returns.
ServiceMonitor.check: systemctl is-active output equals active, False on
any exception.  CPUMonitor, RAMMonitor, DiskMonitor: always True. -/
def Monitor.check (m : Monitor) (w : World) : Bool :=
  match m with
  | .serverPing host => w.ping host
  | .telnet host port => (telnetAttempt 10 (w.telnet host port)).1
  | .service hostname _ _ _ service_name =>
    match w.sshService hostname service_name with
    | none => false
    | some out => out = "active"
  | .cpu => true
  | .ram => true
  | .disk _ => true

/-- The response_time() method of each monitor class.
ServerPingMonitor: the parsed time= field, or the sentinel -1.0.
TelnetMonitor: the elapsed wall-clock time of the attempt, returned on
the success path and on the exception path alike.
ServiceMonitor: always 0.  CPUMonitor: load1 / cpu_count * 100.
RAMMonitor: memory percent.  DiskMonitor: disk usage percent. -/
def Monitor.response_time (m : Monitor) (w : World) : Rat :=
  match m with
  | .serverPing host =>
    match w.pingTime host with
    | some t => t
    | none => -1
  | .telnet host port => (telnetAttempt 10 (w.telnet host port)).2
  | .service _ _ _ _ _ => 0
  | .cpu => w.cpuLoad1 / w.cpuCount * 100
  | .ram => w.ramPercent
  | .disk d => w.diskPercent d

/-- Association-list lookup, the read of a Python dict. -/
def alistGet {α : Type} : List (String × α) → String → Option α
  | [], _ => none
  | (k, v) :: rest, key => if k = key then some v else alistGet rest key

/-- Association-list update, the write of a Python dict: replaces in
place or appends a new key at the end, preserving insertion order. -/
def alistSet {α : Type} : List (String × α) → String → α → List (String × α)
  | [], key, v => [(key, v)]
  | (k, w) :: rest, key, v =>
    if k = key then (k, v) :: rest else (k, w) :: alistSet rest key v

/-- Association-list removal. -/
def alistErase {α : Type} : List (String × α) → String → List (String × α)
  | [], _ => []
  | (k, v) :: rest, key => if k = key then rest else (k, v) :: alistErase rest key

/-- One entry of the per-server result list, the dict appended by
CheckManager.log_result. -/
structure Outcome where
  check_name : String
  result : String
  response_time : Option Rat
deriving DecidableEq

/-- The in-memory aggregate_results dict of CheckManager. -/
abbrev Aggregate := List (String × List Outcome)

/-- Total number of outcome entries over all servers. -/
def totalEntries (agg : Aggregate) : Nat := (agg.map (fun p => p.2.length)).sum

/-- Floor of a rational, by flooring division of numerator by
denominator. -/
def ratFloor (x : Rat) : Int := Int.fdiv x.num (x.den : Int)

/-- Round half to even, the tie-breaking rule of Python round. -/
def roundHalfToEven (x : Rat) : Int :=
  let f : Int := ratFloor x
  let frac : Rat := x - (f : Rat)
  if frac < 1 / 2 then f
  else if 1 / 2 < frac then f + 1
  else if f % 2 = 0 then f else f + 1

/-- Python round(x, 3). -/
def round3 (x : Rat) : Rat := ((roundHalfToEven (x * 1000) : Int) : Rat) / 1000

/-- The line written to the per-server log sink by log_result, reduced
to its data (server, check, Success or Failure, the measured value). -/
structure LogLine where
  server_name : String
  check_name : String
  status : String
  value : Option Rat
deriving DecidableEq

/-- CheckManager.log_result: emits one log line for the execution, then
initialises the per-server list if the key is absent and appends one
outcome entry with the rounded measurement. -/
def log_result (agg : Aggregate) (server_name check_name : String)
    (result : Bool) (response_time : Option Rat) : Aggregate × LogLine :=
  let status := if result then "Success" else "Failure"
  let line : LogLine := ⟨server_name, check_name, status, response_time⟩
  let agg1 := if (alistGet agg server_name).isSome then agg else alistSet agg server_name []
  let entry : Outcome := ⟨check_name, status, response_time.map round3⟩
  (alistSet agg1 server_name ((alistGet agg1 server_name).getD [] ++ [entry]), line)

/-- The three strategy objects held by StrategyFactory in
src/handlers.py. -/
inductive Strategy where
  | notifyFailure
  | notifyWarning
  | moveServices
deriving DecidableEq

/-- Python equality between a json.load result (or the literal passed
by handle_warning) and a str literal: only a string value can compare
equal. -/
def jvalEqStr (j : JVal) (s : String) : Bool :=
  match j with
  | .str t => t = s
  | _ => false

/-- StrategyFactory.get_strategy from src/handlers.py: warning strategy
when the third argument equals the string warning, else the migration
strategy for server TG1, else the failure notification strategy. -/
def get_strategy (server_name : String) (check_type : String) (other_checks : JVal) : Strategy :=
  if jvalEqStr other_checks "warning" then .notifyWarning
  else if server_name = "TG1" then .moveServices
  else .notifyFailure

/-- The Python exceptions that the embedded code can raise. -/
inductive PyError where
  | fileNotFound (path : String)
  | keyError (key : String)
  | nameError (n : String)
  | typeError (msg : String)
deriving DecidableEq

/-- Decidable equality of embedded fallible results. -/
instance exceptDecEq {ε α : Type} [DecidableEq ε] [DecidableEq α] : DecidableEq (Except ε α)
  | .error e1, .error e2 =>
    if h : e1 = e2 then isTrue (by rw [h]) else isFalse fun hc => h (Except.error.inj hc)
  | .error _, .ok _ => isFalse Except.noConfusion
  | .ok _, .error _ => isFalse Except.noConfusion
  | .ok a1, .ok a2 =>
    if h : a1 = a2 then isTrue (by rw [h]) else isFalse fun hc => h (Except.ok.inj hc)

/-- An escalation dispatched by CheckManager: the handler.handle call
made by handle_failure or handle_warning, with its arguments. -/
inductive Escalation where
  | failure (server_name check_name check_type : String)
  | warning (server_name check_name : String) (value : Rat)
deriving DecidableEq

/-- The path of the durable snapshot. -/
def aggregatePath : String := "./aggregate_results.json"

/-- CheckManager.handle_failure: loads the persisted snapshot from
./aggregate_results.json (raising when the file cannot be opened),
selects a strategy via get_strategy with the loaded document as third
argument, and invokes handler.handle(server_name, check_name).  The
file system is modelled as the parsed content of the snapshot file,
none when the file cannot be opened.  Were the warning strategy ever
selected here, its handle method would be called with one positional
argument missing, a TypeError. -/
def handle_failure (fs : Option JVal) (server_name check_name check_type : String) :
    Except PyError (Strategy × Escalation) :=
  match fs with
  | none => .error (.fileNotFound aggregatePath)
  | some data =>
    match get_strategy server_name check_type data with
    | .notifyWarning => .error (.typeError "handle missing required positional argument")
    | s => .ok (s, .failure server_name check_name check_type)

/-- CheckManager.handle_warning: selects a strategy via get_strategy
with the literal string warning as third argument (the second argument
passed is the check name, as in the source) and invokes
handler.handle(server_name, check_name, value). -/
def handle_warning (server_name check_name : String) (value : Rat) : Strategy × Escalation :=
  (get_strategy server_name check_name (.str "warning"), .warning server_name check_name value)

/-- The monitor selected by the if/elif chain at the top of
CheckManager.run_check; none for an unrecognised check type (the bare
return). -/
def monitorFor (server : ServerConfig) (check : CheckConfig) : Option Monitor :=
  if check.type = "ping" then some (.serverPing server.host)
  else if check.type = "telnet" then some (.telnet server.host check.port)
  else if check.type = "service" then some (.service server.host 22 server.user server.password check.service)
  else if check.type = "cpu" then some .cpu
  else if check.type = "ram" then some .ram
  else if check.type = "disk_space" then some (.disk "/")
  else none

/-- Everything one call of CheckManager.run_check does: the updated
aggregate, the log lines emitted, the handler invocations dispatched,
and the exception caught by its try/except (if any). -/
structure RunCheckResult where
  agg : Aggregate
  logs : List LogLine
  dispatched : List (Strategy × Escalation)
  caught : Option PyError
deriving DecidableEq

/-- CheckManager.run_check.  Selects the monitor (returning silently on
an unrecognised type), runs check() then response_time(), records the
outcome via log_result, then classifies: for a type not contained in
the string cpu ram disk_space, a False check dispatches handle_failure
and a True check with response_time at or above response_time_limit
dispatches handle_warning; for a type contained in that string, a
response_time at or above resourse_limits[check name] dispatches
handle_warning (a missing key raises KeyError).  Any exception raised
inside is caught and logged, never propagated. -/
def run_check (agg : Aggregate) (fs : Option JVal) (cfg : Config) (w : World)
    (server : ServerConfig) (check : CheckConfig) : RunCheckResult :=
  match monitorFor server check with
  | none => ⟨agg, [], [], none⟩
  | some monitor =>
    let result := monitor.check w
    let response_time := monitor.response_time w
    let lg := log_result agg server.name check.name result (some response_time)
    if pyIn check.type "cpu ram disk_space" = false then
      if result = false then
        match handle_failure fs server.name check.name check.type with
        | .ok d => ⟨lg.1, [lg.2], [d], none⟩
        | .error e => ⟨lg.1, [lg.2], [], some e⟩
      else if cfg.response_time_limit ≤ response_time then
        ⟨lg.1, [lg.2], [handle_warning server.name check.name response_time], none⟩
      else ⟨lg.1, [lg.2], [], none⟩
    else
      match alistGet cfg.resourse_limits check.name with
      | none => ⟨lg.1, [lg.2], [], some (.keyError check.name)⟩
      | some lim =>
        if lim ≤ response_time then
          ⟨lg.1, [lg.2], [handle_warning server.name check.name response_time], none⟩
        else ⟨lg.1, [lg.2], [], none⟩

/-- Whether a run_check result dispatched a failure escalation. -/
def dispatchesFailure (r : RunCheckResult) : Bool :=
  r.dispatched.any fun d =>
    match d.2 with
    | .failure _ _ _ => true
    | _ => false

/-- Whether a run_check result dispatched a warning escalation. -/
def dispatchesWarning (r : RunCheckResult) : Bool :=
  r.dispatched.any fun d =>
    match d.2 with
    | .warning _ _ _ => true
    | _ => false

/-- The aggregate produced by running the checks of a round one after
the other against the same snapshot file, configuration and world. -/
def runRound (agg : Aggregate) (fs : Option JVal) (cfg : Config) (w : World)
    (pairs : List (ServerConfig × CheckConfig)) : Aggregate :=
  pairs.foldl (fun a p => (run_check a fs cfg w p.1 p.2).agg) agg

/-- The JSON document that save_aggregate_results serialises: the
aggregate dict, one array of outcome dicts per server, with the
last-check-time key set to the flush timestamp. -/
def snapshotDoc (agg : Aggregate) (ts : String) : JVal :=
  .obj ((agg.map fun p =>
    (p.1, JVal.arr (p.2.map fun o =>
      JVal.obj [("check_name", .str o.check_name),
                ("result", .str o.result),
                ("response_time", match o.response_time with
                                  | some q => .num q
                                  | none => .null)]))) ++ [("last-check-time", .str ts)])

/-- A file-system operation performed by the persistence code. -/
inductive FileOp where
  | openTrunc (path : String)
  | writeAll (path : String) (content : String)
  | renameFile (src dst : String)
deriving DecidableEq

/-- The file operations performed by CheckManager.save_aggregate_results
on the serialised snapshot text: open(path, w) truncates the target in
place, then the whole serialisation is written.  The source performs no
write to a temporary path and no rename. -/
def save_aggregate_results_ops (json_str : String) : List FileOp :=
  [.openTrunc aggregatePath, .writeAll aggregatePath json_str]

/-- A file system: path to current content. -/
abbrev FS := List (String × String)

/-- Effect of one file operation. -/
def applyOp (fs : FS) : FileOp → FS
  | .openTrunc p => alistSet fs p ""
  | .writeAll p c => alistSet fs p ((alistGet fs p).getD "" ++ c)
  | .renameFile src dst =>
    match alistGet fs src with
    | some c => alistSet (alistErase fs src) dst c
    | none => fs

/-- The file-system states before, between and after a sequence of
operations: every instant at which a concurrent reader can open the
file. -/
def statesDuring (fs : FS) : List FileOp → List FS
  | [] => [fs]
  | op :: ops => fs :: statesDuring (applyOp fs op) ops

/-- What a concurrent reader of a path can observe while a sequence of
file operations runs. -/
def readerObservations (fs : FS) (ops : List FileOp) (p : String) : List (Option String) :=
  (statesDuring fs ops).map fun st => alistGet st p

/-- The names bound in the module scope of src/main.py when
CheckManager.start runs: the imports of lines 3 to 14 and the top-level
class and function definitions. -/
def mainModuleScope : List String :=
  ["ABC", "abstractmethod", "subprocess", "psutil", "telnetlib", "time", "paramiko",
   "servers", "resourse_limits", "response_time_limit", "Thread", "logging", "json",
   "datetime", "StrategyFactory", "IMonitorStrategy", "ServerPingMonitor",
   "TelnetMonitor", "ServiceMonitor", "CPUMonitor", "RAMMonitor", "DiskMonitor",
   "CheckManager", "start_monitoring"]

/-- The identifier the thread-spawning statement of CheckManager.start
(src/main.py line 377) actually applies.  Its second character is the
Cyrillic letter U+0444, not the Latin h of the imported name Thread. -/
def threadNameAtSpawn : String := "Tфhread"

/-- The events of one iteration of the while-loop of
CheckManager.start, in program order: spawn one worker per
(server, check) pair, join them all, then flush the snapshot. -/
inductive RoundEvent where
  | spawned (server_name check_name : String)
  | joinedAll
  | savedResults
deriving DecidableEq

/-- One iteration of the while-loop of CheckManager.start.  Every
spawning statement first resolves the identifier it applies against the
module scope; an unbound identifier raises NameError, which nothing in
start catches.  On success the trace records each spawn, then the join
of all workers, then the save_aggregate_results flush. -/
def startRound (servers : List ServerConfig) : Except PyError (List RoundEvent) := do
  let mut events : List RoundEvent := []
  for server in servers do
    for check in server.checks do
      if mainModuleScope.contains threadNameAtSpawn then
        events := events ++ [.spawned server.name check.name]
      else
        throw (PyError.nameError threadNameAtSpawn)
  return events ++ [.joinedAll, .savedResults]

/-- One alert POST to the message relay: the chat_id and message of the
request body. -/
structure Alert where
  chat_id : Int
  message : String
deriving DecidableEq

/-- MoveServicesStrategy.send_message: posts the same message once per
configured chat. -/
def send_message (chats : List Int) (message : String) : List Alert :=
  chats.map fun id => ⟨id, message⟩

/-- The environment one MoveServicesStrategy.handle invocation
observes: whether connect_ssh to each of TG1 and TG2 yields a client
(False models the None it returns after catching a connection error),
and whether the subsequent service stop or start commands raise. -/
structure MigrationWorld where
  tg1Connect : Bool
  tg1CmdRaises : Bool
  tg2Connect : Bool
  tg2CmdRaises : Bool
deriving DecidableEq

/-- MoveServicesStrategy.connect_and_disable_services.  A missing
server entry makes connect_ssh raise TypeError while formatting its own
error log line, and the except clause here raises the same TypeError
again, so the call propagates it.  Otherwise: connect_ssh returning
None falls through to the final return False; an exception while
stopping services is caught and also yields False; else True. -/
def connect_and_disable_services (server_info : Option ServerConfig)
    (connectOk cmdRaises : Bool) : Except PyError Bool :=
  match server_info with
  | none => .error (.typeError "NoneType object is not subscriptable")
  | some _ => .ok (if connectOk then (if cmdRaises then false else true) else false)

/-- MoveServicesStrategy.connect_and_enable_services.  As above a
missing server entry propagates TypeError.  Otherwise: an exception
while starting services is caught and returns False; success returns
True; but when connect_ssh returns None the function falls off its end
and returns Python None, not False. -/
def connect_and_enable_services (server_info : Option ServerConfig)
    (connectOk cmdRaises : Bool) : Except PyError (Option Bool) :=
  match server_info with
  | none => .error (.typeError "NoneType object is not subscriptable")
  | some _ => .ok (if connectOk then (if cmdRaises then some false else some true) else none)

/-- Python truthiness of an Optional[bool]. -/
def pyTruthy : Option Bool → Bool
  | none => false
  | some b => b

/-- MoveServicesStrategy.handle: looks up the TG1 and TG2 entries of
the server list, composes the alert header from the original failure,
appends one line for the outcome of the primary stop step, one line for
the outcome of the secondary start step, and broadcasts the composite
message once via send_message. -/
def moveServices_handle (servers : List ServerConfig) (chats : List Int)
    (w : MigrationWorld) (server_name check_name : String) : Except PyError (List Alert) :=
  let tg1_server_info := servers.find? fun s => s.name == "TG1"
  let tg2_server_info := servers.find? fun s => s.name == "TG2"
  let message := "❗❗❗ТРИВОГА\n\n" ++ server_name ++ " --- " ++ check_name ++ " НЕ ВІДПОВІДАЄ\n\n"
  match connect_and_disable_services tg1_server_info w.tg1Connect w.tg1CmdRaises with
  | .error e => .error e
  | .ok r1 =>
    let message := message ++ (if r1 then "Служби відключені на TG1\n" else "Не вдалося під\x27єднатися до TG1\n")
    match connect_and_enable_services tg2_server_info w.tg2Connect w.tg2CmdRaises with
    | .error e => .error e
    | .ok r2 =>
      let message := message ++ (if pyTruthy r2 then "Служби включені на TG2\n" else "Не вдалося під\x27єднатися до TG2\n")
      .ok (send_message chats message)

/-- Whether the primary stop step of the migration reports success. -/
def primaryStopReported (w : MigrationWorld) : Bool := w.tg1Connect && !w.tg1CmdRaises

/-- Whether the secondary start step of the migration reports success. -/
def secondaryStartReported (w : MigrationWorld) : Bool := w.tg2Connect && !w.tg2CmdRaises

/-- One pending append of an outcome for a server, the work a
run_check worker hands to log_result. -/
structure WorkerTask where
  server_name : String
  entry : Outcome
deriving DecidableEq

/-- Program counter of a worker inside the aggregate-mutating suffix of
log_result.  The CPython interpreter lock makes each dict or list
operation atomic, but the thread can be preempted between them: between
the membership test, the conditional initialisation to an empty list,
and the append. -/
inductive ThreadPC where
  | atMembershipTest
  | atInitList
  | atAppend
  | donePC
deriving DecidableEq

/-- A worker thread executing the aggregate update of log_result:
its task, its program counter, and the membership-test result it keeps
on its evaluation stack. -/
structure ThreadState where
  task : WorkerTask
  pc : ThreadPC
  sawMissing : Bool
deriving DecidableEq

/-- One atomic interpreter step of a worker inside the aggregate update
of log_result. -/
def stepThread (agg : Aggregate) (t : ThreadState) : Aggregate × ThreadState :=
  match t.pc with
  | .atMembershipTest =>
    (agg, { t with pc := .atInitList, sawMissing := (alistGet agg t.task.server_name).isNone })
  | .atInitList =>
    ((if t.sawMissing then alistSet agg t.task.server_name [] else agg), { t with pc := .atAppend })
  | .atAppend =>
    (alistSet agg t.task.server_name ((alistGet agg t.task.server_name).getD [] ++ [t.task.entry]),
     { t with pc := .donePC })
  | .donePC => (agg, t)

/-- Runs the workers under a schedule: each schedule entry names the
worker that takes the next atomic step. -/
def runSchedule : Aggregate → List ThreadState → List Nat → Aggregate × List ThreadState
  | agg, ts, [] => (agg, ts)
  | agg, ts, i :: rest =>
    match ts[i]? with
    | none => runSchedule agg ts rest
    | some t =>
      let s := stepThread agg t
      runSchedule s.1 (ts.set i s.2) rest

/-- Reading back a freshly written key. -/
theorem alistGet_alistSet_self {α : Type} (l : List (String × α)) (k : String) (v : α) :
    alistGet (alistSet l k v) k = some v := by
  induction l with
  | nil => simp [alistGet, alistSet]
  | cons h t ih =>
    by_cases hk : h.1 = k <;> simp [alistGet, alistSet, hk, ih]

/-- Writing a fresh key adds exactly its entries to the total count. -/
theorem totalEntries_alistSet_none (agg : Aggregate) (k : String) (v : List Outcome)
    (h : alistGet agg k = none) :
    totalEntries (alistSet agg k v) = totalEntries agg + v.length := by
  induction agg with
  | nil => simp [alistSet, totalEntries]
  | cons p t ih =>
    by_cases hk : p.1 = k
    · simp [alistGet, hk] at h
    · simp only [alistGet, hk, if_neg] at h
      simp [alistSet, hk, totalEntries] at ih ⊢
      rw [ih h]
      omega

/-- Overwriting an existing key swaps its entry count for the new one. -/
theorem totalEntries_alistSet_some (agg : Aggregate) (k : String) (u v : List Outcome)
    (h : alistGet agg k = some u) :
    totalEntries (alistSet agg k v) + u.length = totalEntries agg + v.length := by
  induction agg with
  | nil => simp [alistGet] at h
  | cons p t ih =>
    by_cases hk : p.1 = k
    · simp only [alistGet, hk, if_pos] at h
      obtain rfl : p.2 = u := by injection h
      simp [alistSet, hk, totalEntries]
      omega
    · simp only [alistGet, hk, if_neg] at h
      simp [alistSet, hk, totalEntries] at ih ⊢
      have := ih h
      omega

/-- Initialising a missing per-server list and appending one entry to
it raises the total entry count by one. -/
theorem totalEntries_dictAppend (agg : Aggregate) (s : String) (e : Outcome) :
    totalEntries
      (let agg1 := if (alistGet agg s).isSome then agg else alistSet agg s []
       alistSet agg1 s ((alistGet agg1 s).getD [] ++ [e])) = totalEntries agg + 1 := by
  cases h : alistGet agg s with
  | some u =>
    simp only [h, Option.isSome_some, if_true, Option.getD_some]
    have key := totalEntries_alistSet_some agg s u (u ++ [e]) h
    simp only [List.length_append, List.length_cons, List.length_nil] at key
    omega
  | none =>
    simp only [h, Option.isSome_none, Bool.false_eq_true, if_false,
      alistGet_alistSet_self, Option.getD_some, List.nil_append]
    have h0 := totalEntries_alistSet_none agg s [] h
    have key := totalEntries_alistSet_some (alistSet agg s []) s [] [e]
      (alistGet_alistSet_self agg s [])
    simp only [List.length_cons, List.length_nil] at key h0
    omega

/-- log_result appends exactly one outcome entry. -/
theorem totalEntries_log_result (agg : Aggregate) (s c : String) (r : Bool) (t : Option Rat) :
    totalEntries (log_result agg s c r t).1 = totalEntries agg + 1 :=
  totalEntries_dictAppend agg s _

/-- The six recognised check types and the monitor each one selects. -/
theorem monitorFor_cases {server : ServerConfig} {check : CheckConfig} {m : Monitor}
    (hm : monitorFor server check = some m) :
    (check.type = "ping" ∧ m = .serverPing server.host) ∨
    (check.type = "telnet" ∧ m = .telnet server.host check.port) ∨
    (check.type = "service" ∧ m = .service server.host 22 server.user server.password check.service) ∨
    (check.type = "cpu" ∧ m = .cpu) ∨
    (check.type = "ram" ∧ m = .ram) ∨
    (check.type = "disk_space" ∧ m = .disk "/") := by
  unfold monitorFor at hm
  split_ifs at hm <;> simp_all

/-- Whatever the classification does afterwards, a recognised check
updates the aggregate exactly as log_result does. -/
theorem run_check_agg_recognized (agg : Aggregate) (fs : Option JVal) (cfg : Config)
    (w : World) (server : ServerConfig) (check : CheckConfig) (m : Monitor)
    (hm : monitorFor server check = some m) :
    (run_check agg fs cfg w server check).agg =
      (log_result agg server.name check.name (m.check w) (some (m.response_time w))).1 := by
  unfold run_check
  rw [hm]
  dsimp only
  split
  · split
    · split <;> rfl
    · split <;> rfl
  · split <;> try rfl
    split <;> rfl

/-- Entry count added by one run_check call: one for a recognised
type, zero for an unrecognised one. -/
theorem totalEntries_run_check (agg : Aggregate) (fs : Option JVal) (cfg : Config)
    (w : World) (server : ServerConfig) (check : CheckConfig) :
    totalEntries (run_check agg fs cfg w server check).agg =
      totalEntries agg + (if (monitorFor server check).isSome then 1 else 0) := by
  cases hm : monitorFor server check with
  | none => simp [run_check, hm]
  | some m =>
    rw [run_check_agg_recognized agg fs cfg w server check m hm, totalEntries_log_result]
    simp

/-- Entry count over a whole round. -/
theorem totalEntries_runRound (cfg : Config) (w : World) (fs : Option JVal)
    (pairs : List (ServerConfig × CheckConfig)) (agg : Aggregate) :
    totalEntries (runRound agg fs cfg w pairs) =
      totalEntries agg + (pairs.filter fun p => (monitorFor p.1 p.2).isSome).length := by
  induction pairs generalizing agg with
  | nil => simp [runRound]
  | cons p ps ih =>
    have step : runRound agg fs cfg w (p :: ps) =
        runRound (run_check agg fs cfg w p.1 p.2).agg fs cfg w ps := rfl
    rw [step, ih, totalEntries_run_check]
    by_cases hp : (monitorFor p.1 p.2).isSome <;> simp [hp, List.filter_cons] <;> omega

/-- A world in which every probe fails: no ping reply, no parsed ping
time, no transport connection ever completes, every SSH session raises,
and all resource readings are zero. -/
def quietWorld : World :=
  { ping := fun _ => false, pingTime := fun _ => none, telnet := fun _ _ => .never,
    sshService := fun _ _ => none, cpuLoad1 := 0, cpuCount := 1, ramPercent := 0,
    diskPercent := fun _ => 0 }

/-- The quiet world with memory utilisation at 92 percent. -/
def ramWorld : World := { quietWorld with ramPercent := 92 }

/-- A sample fleet entry. -/
def sampleServer : ServerConfig := ⟨"WEB1", "10.0.0.5", "root", "pw", []⟩

/-- A sample ping check. -/
def samplePingCheck : CheckConfig := ⟨"ping check", "ping", 0, ""⟩

/-- A sample RAM check. -/
def sampleRamCheck : CheckConfig := ⟨"RAM", "ram", 0, ""⟩

/-- A sample check with a type the executor does not recognise. -/
def sampleBadCheck : CheckConfig := ⟨"mystery", "smtp", 0, ""⟩

/-- A sample configuration: response time limit 5, RAM limited to 80
percent, one alert chat. -/
def sampleCfg : Config := ⟨5, [("RAM", 80)], [7]⟩

/-- A sample fleet holding the two migration hosts. -/
def migrationServers : List ServerConfig :=
  [⟨"TG1", "10.0.0.1", "root", "pw", []⟩, ⟨"TG2", "10.0.0.2", "root", "pw", []⟩]

/-- Two worker tasks racing to append for the same server. -/
def raceTaskA : WorkerTask := ⟨"S1", ⟨"check-a", "Success", some 1⟩⟩

/-- The second racing worker task. -/
def raceTaskB : WorkerTask := ⟨"S1", ⟨"check-b", "Success", some 2⟩⟩

/-- The two workers, both about to run the aggregate update. -/
def raceThreads : List ThreadState :=
  [⟨raceTaskA, .atMembershipTest, false⟩, ⟨raceTaskB, .atMembershipTest, false⟩]

/-- A schedule in which both workers pass the membership test before
either initialises the list: the second initialisation discards the
first append. -/
def lostUpdateSchedule : List Nat := [0, 1, 0, 0, 1, 1]

/-- C2: the round body of CheckManager.start applies the identifier
spelled with a Cyrillic letter at line 377, which is not bound in the
module scope (only Thread is), so on any configuration with at least
one (server, check) pair the first iteration raises NameError before
any worker is launched, and the snapshot flush is never reached. -/
theorem C2_round_raises_nameerror :
    startRound [⟨"TG1", "192.168.0.1", "root", "pw", [⟨"ping TG1", "ping", 0, ""⟩]⟩] =
      .error (.nameError threadNameAtSpawn)
    ∧ mainModuleScope.contains "Thread" = true
    ∧ mainModuleScope.contains threadNameAtSpawn = false
    ∧ threadNameAtSpawn ≠ "Thread"
    ∧ startRound [] = .ok [.joinedAll, .savedResults] := by decide

/-- C3 counterexample: the flush of save_aggregate_results truncates
./aggregate_results.json in place and then writes the new text, with no
rename operation at all; a reader between the truncation and the write
observes the empty file, which does not parse as JSON (while both the
previous and the new complete snapshot texts do). -/
theorem C3_counterexample :
    readerObservations [(aggregatePath, "\x7b\x7d")]
        (save_aggregate_results_ops "\x7b\"WEB1\": []\x7d") aggregatePath =
      [some "\x7b\x7d", some "", some "\x7b\"WEB1\": []\x7d"]
    ∧ isValidJson "" = false
    ∧ isValidJson "\x7b\x7d" = true
    ∧ isValidJson "\x7b\"WEB1\": []\x7d" = true
    ∧ (save_aggregate_results_ops "\x7b\"WEB1\": []\x7d").all
        (fun op => match op with | .renameFile _ _ => false | _ => true) = true := by
  decide

/-- C3 amended: the snapshot flush opens the destination path directly
in truncating write mode and writes the serialised text there; it uses
no temporary path and no rename, and for every initial file-system
state a concurrent reader can observe the truncated empty file, which
fails to parse as JSON. -/
theorem C3_flush_not_atomic (json_str : String) (fs0 : FS) :
    save_aggregate_results_ops json_str =
      [.openTrunc aggregatePath, .writeAll aggregatePath json_str]
    ∧ (∀ op ∈ save_aggregate_results_ops json_str, ∀ src dst, op ≠ FileOp.renameFile src dst)
    ∧ some "" ∈ readerObservations fs0 (save_aggregate_results_ops json_str) aggregatePath
    ∧ isValidJson "" = false := by
  refine ⟨rfl, ?_, ?_, by decide⟩
  · intro op hop src dst
    simp only [save_aggregate_results_ops, List.mem_cons, List.mem_singleton] at hop
    rcases hop with h | h | h <;> simp_all
  · simp [readerObservations, statesDuring, save_aggregate_results_ops, applyOp,
      alistGet_alistSet_self]

/-- C3 witness: the amended flush behaviour at a concrete serialised
text and a concrete initial file system. -/
theorem C3_flush_not_atomic_witness :
    some "" ∈ readerObservations [(aggregatePath, "\x7b\x7d")]
        (save_aggregate_results_ops "\x7b\"WEB1\": []\x7d") aggregatePath
    ∧ isValidJson "" = false :=
  ⟨(C3_flush_not_atomic "\x7b\"WEB1\": []\x7d" [(aggregatePath, "\x7b\x7d")]).2.2.1,
   (C3_flush_not_atomic "\x7b\"WEB1\": []\x7d" [(aggregatePath, "\x7b\x7d")]).2.2.2⟩

/-- C5: StrategyFactory.get_strategy returns the warning strategy
whenever its third argument equals the string warning, regardless of
the server name; otherwise it returns the migration strategy exactly
for server TG1 and the failure notification strategy for every other
server. -/
theorem C5_strategy_selection (server_name check_type : String) (severity : JVal) :
    (jvalEqStr severity "warning" = true ↔ severity = JVal.str "warning")
    ∧ (jvalEqStr severity "warning" = true →
        get_strategy server_name check_type severity = .notifyWarning)
    ∧ (jvalEqStr severity "warning" = false → server_name = "TG1" →
        get_strategy server_name check_type severity = .moveServices)
    ∧ (jvalEqStr severity "warning" = false → server_name ≠ "TG1" →
        get_strategy server_name check_type severity = .notifyFailure) := by
  refine ⟨?_, fun h => by simp [get_strategy, h], fun h hs => by simp [get_strategy, h, hs],
    fun h hs => by simp [get_strategy, h, hs]⟩
  cases severity <;> simp [jvalEqStr]

/-- C5 witness: the three selection outcomes at concrete inputs. -/
theorem C5_strategy_selection_witness :
    get_strategy "WEB1" "ping" (.str "warning") = .notifyWarning
    ∧ get_strategy "TG1" "ping" (.obj []) = .moveServices
    ∧ get_strategy "WEB1" "ping" (.obj []) = .notifyFailure :=
  ⟨(C5_strategy_selection "WEB1" "ping" (.str "warning")).2.1 (by decide),
   (C5_strategy_selection "TG1" "ping" (.obj [])).2.2.1 (by decide) rfl,
   (C5_strategy_selection "WEB1" "ping" (.obj [])).2.2.2 (by decide) (by decide)⟩

/-- C7: TelnetMonitor.response_time returns the elapsed wall-clock time
of the connection attempt on the success path and the exception path
alike; in particular an attempt that never completes within the
10-second timeout yields a Failure check together with a response time
of 10 seconds, not the -1 sentinel of the ping monitor. -/
theorem C7_telnet_timeout (w : World) (host : String) (port : Nat) :
    (Monitor.telnet host port).response_time w = (telnetAttempt 10 (w.telnet host port)).2
    ∧ (w.telnet host port = ConnectBehavior.never →
        (Monitor.telnet host port).check w = false
        ∧ (Monitor.telnet host port).response_time w = 10
        ∧ (Monitor.telnet host port).response_time w ≠ -1) := by
  refine ⟨rfl, fun h => ?_⟩
  rw [show (Monitor.telnet host port).check w = (telnetAttempt 10 (w.telnet host port)).1 from rfl,
    show (Monitor.telnet host port).response_time w = (telnetAttempt 10 (w.telnet host port)).2 from rfl,
    h]
  refine ⟨rfl, rfl, by decide⟩

/-- C7 witness: the scenario host 10.0.0.5 port 23 in a world where
that connection never completes. -/
theorem C7_telnet_timeout_witness :
    quietWorld.telnet "10.0.0.5" 23 = ConnectBehavior.never
    ∧ (Monitor.telnet "10.0.0.5" 23).check quietWorld = false
    ∧ (Monitor.telnet "10.0.0.5" 23).response_time quietWorld = 10 :=
  ⟨rfl, ((C7_telnet_timeout quietWorld "10.0.0.5" 23).2 rfl).1,
   ((C7_telnet_timeout quietWorld "10.0.0.5" 23).2 rfl).2.1⟩

/-- C8: strategy selection is a pure function of its arguments, and on
the failure path the third argument is the parsed persisted snapshot,
which is always a JSON object, so the selected strategy is independent
of the snapshot contents and determined by the server name alone. -/
theorem C8_selection_stateless (server_name check_type : String)
    (agg1 agg2 : Aggregate) (t1 t2 : String) :
    get_strategy server_name check_type (snapshotDoc agg1 t1) =
      get_strategy server_name check_type (snapshotDoc agg2 t2)
    ∧ get_strategy server_name check_type (snapshotDoc agg1 t1) =
        (if server_name = "TG1" then Strategy.moveServices else Strategy.notifyFailure) := by
  constructor <;> simp [get_strategy, snapshotDoc, jvalEqStr]

/-- C9 counterexample: under the interleaving in which both workers
pass the membership test before either initialises the per-server
list, both workers run to completion yet the final aggregate holds
only the second worker's entry: the first append is lost.  A
serialised schedule of the same two workers keeps both entries. -/
theorem C9_counterexample :
    ((runSchedule [] raceThreads lostUpdateSchedule).2.all fun t => t.pc == ThreadPC.donePC) = true
    ∧ (runSchedule [] raceThreads lostUpdateSchedule).1 =
        [("S1", [⟨"check-b", "Success", some 2⟩])]
    ∧ totalEntries (runSchedule [] raceThreads lostUpdateSchedule).1 = 1
    ∧ raceThreads.length = 2
    ∧ (runSchedule [] raceThreads [0, 0, 0, 1, 1, 1]).1 =
        [("S1", [⟨"check-a", "Success", some 1⟩, ⟨"check-b", "Success", some 2⟩])] := by
  decide

/-- C9 amended: the aggregate append path of log_result takes no lock;
each single interpreter operation is atomic, but the membership test,
the conditional list initialisation and the append are separate steps,
and there exists an interleaving of two workers for the same server
under which an append is lost. -/
theorem C9_append_can_be_lost :
    ∃ sched : List Nat,
      ((runSchedule [] raceThreads sched).2.all fun t => t.pc == ThreadPC.donePC) = true
      ∧ totalEntries (runSchedule [] raceThreads sched).1 < raceThreads.length :=
  ⟨lostUpdateSchedule, by decide, by decide⟩

/-- C4: whenever the fleet holds entries named TG1 and TG2, the
Migrate-Services handler never raises: for every combination of the
primary stop step and the secondary start step succeeding or failing,
it composes one composite message from the original failure plus one
line reporting each step's outcome, and broadcasts exactly that one
message. -/
theorem C4_migration_handler (servers : List ServerConfig) (chats : List Int)
    (w : MigrationWorld) (server_name check_name : String)
    (h1 : (servers.find? fun s => s.name == "TG1").isSome = true)
    (h2 : (servers.find? fun s => s.name == "TG2").isSome = true) :
    moveServices_handle servers chats w server_name check_name =
      .ok (send_message chats
        ("❗❗❗ТРИВОГА\n\n" ++ server_name ++ " --- " ++ check_name ++ " НЕ ВІДПОВІДАЄ\n\n"
          ++ (if primaryStopReported w then "Служби відключені на TG1\n"
              else "Не вдалося під\x27єднатися до TG1\n")
          ++ (if secondaryStartReported w then "Служби включені на TG2\n"
              else "Не вдалося під\x27єднатися до TG2\n"))) := by
  obtain ⟨s1, hs1⟩ := Option.isSome_iff_exists.mp h1
  obtain ⟨s2, hs2⟩ := Option.isSome_iff_exists.mp h2
  obtain ⟨c1, r1, c2, r2⟩ := w
  simp only [moveServices_handle, hs1, hs2, connect_and_disable_services,
    connect_and_enable_services, primaryStopReported, secondaryStartReported, pyTruthy]
  cases c1 <;> cases r1 <;> cases c2 <;> cases r2 <;> rfl

/-- C4 witness: a fleet holding TG1 and TG2, a world in which the
primary stop succeeds and the secondary connection fails. -/
theorem C4_migration_handler_witness :
    ((migrationServers.find? fun s => s.name == "TG1").isSome = true)
    ∧ ((migrationServers.find? fun s => s.name == "TG2").isSome = true)
    ∧ moveServices_handle migrationServers [7] ⟨true, false, false, false⟩ "TG1" "ping TG1" =
        .ok (send_message [7]
          ("❗❗❗ТРИВОГА\n\nTG1 --- ping TG1 НЕ ВІДПОВІДАЄ\n\n"
            ++ "Служби відключені на TG1\n" ++ "Не вдалося під\x27єднатися до TG2\n")) :=
  ⟨by decide, by decide, by
    have h := C4_migration_handler migrationServers [7] ⟨true, false, false, false⟩
      "TG1" "ping TG1" (by decide) (by decide)
    simpa [primaryStopReported, secondaryStartReported] using h⟩

/-- C6: the number of outcome entries a round adds to the aggregate
equals the number of its (server, check) pairs with a recognised type;
every recognised pair adds exactly one entry, and a pair with an
unrecognised type leaves the aggregate untouched, emits no log line and
dispatches no escalation. -/
theorem C6_outcome_count (cfg : Config) (w : World) (fs : Option JVal) (agg : Aggregate)
    (pairs : List (ServerConfig × CheckConfig)) (server : ServerConfig) (check : CheckConfig)
    (hnone : monitorFor server check = none) :
    totalEntries (runRound agg fs cfg w pairs) =
      totalEntries agg + (pairs.filter fun p => (monitorFor p.1 p.2).isSome).length
    ∧ (∀ (s2 : ServerConfig) (c2 : CheckConfig) (m2 : Monitor), monitorFor s2 c2 = some m2 →
        totalEntries (run_check agg fs cfg w s2 c2).agg = totalEntries agg + 1)
    ∧ run_check agg fs cfg w server check = ⟨agg, [], [], none⟩ := by
  refine ⟨totalEntries_runRound cfg w fs pairs agg, fun s2 c2 m2 hm2 => ?_, ?_⟩
  · rw [totalEntries_run_check, hm2]
    rfl
  · simp [run_check, hnone]

/-- C6 witness: a two-pair round with one recognised and one
unrecognised check. -/
theorem C6_outcome_count_witness :
    monitorFor sampleServer sampleBadCheck = none
    ∧ totalEntries (runRound [] none sampleCfg quietWorld
        [(sampleServer, samplePingCheck), (sampleServer, sampleBadCheck)]) =
        totalEntries ([] : Aggregate) +
          (([(sampleServer, samplePingCheck), (sampleServer, sampleBadCheck)].filter
            fun p => (monitorFor p.1 p.2).isSome).length)
    ∧ run_check [] none sampleCfg quietWorld sampleServer sampleBadCheck = ⟨[], [], [], none⟩ :=
  ⟨by decide,
   (C6_outcome_count sampleCfg quietWorld none []
     [(sampleServer, samplePingCheck), (sampleServer, sampleBadCheck)]
     sampleServer sampleBadCheck (by decide)).1,
   (C6_outcome_count sampleCfg quietWorld none []
     [(sampleServer, samplePingCheck), (sampleServer, sampleBadCheck)]
     sampleServer sampleBadCheck (by decide)).2.2⟩

/-- C10: when the snapshot file cannot be opened, a failing
non-resource check still records its Failure outcome in the aggregate
and emits its per-server log line, but handle_failure raises before any
strategy is selected, so nothing is dispatched and no alert is sent;
run_check catches the exception, leaving the round to continue. -/
theorem C10_missing_snapshot (cfg : Config) (w : World) (agg : Aggregate)
    (server : ServerConfig) (check : CheckConfig) (m : Monitor)
    (hm : monitorFor server check = some m)
    (hnr : pyIn check.type "cpu ram disk_space" = false)
    (hfail : m.check w = false) :
    (run_check agg none cfg w server check).agg =
      (log_result agg server.name check.name false (some (m.response_time w))).1
    ∧ (run_check agg none cfg w server check).logs =
        [(log_result agg server.name check.name false (some (m.response_time w))).2]
    ∧ (run_check agg none cfg w server check).dispatched = []
    ∧ (run_check agg none cfg w server check).caught = some (.fileNotFound aggregatePath) := by
  simp only [run_check, hm, hnr, hfail, handle_failure]
  refine ⟨rfl, rfl, rfl, rfl⟩

/-- The full dispatch behaviour of a recognised check, by the branch
structure of CheckManager.run_check. -/
theorem run_check_dispatched_char (agg : Aggregate) (fs : Option JVal) (cfg : Config)
    (w : World) (server : ServerConfig) (check : CheckConfig) (m : Monitor)
    (hm : monitorFor server check = some m) :
    (run_check agg fs cfg w server check).dispatched =
      if pyIn check.type "cpu ram disk_space" = false then
        (if m.check w = false then
          (match handle_failure fs server.name check.name check.type with
           | .ok d => [d]
           | .error _ => [])
         else if cfg.response_time_limit ≤ m.response_time w then
           [handle_warning server.name check.name (m.response_time w)]
         else [])
      else
        (match alistGet cfg.resourse_limits check.name with
         | none => []
         | some lim =>
           if lim ≤ m.response_time w then
             [handle_warning server.name check.name (m.response_time w)]
           else []) := by
  unfold run_check
  rw [hm]
  dsimp only
  split
  · split
    · split <;> rfl
    · split <;> rfl
  · split <;> try rfl
    split <;> rfl

/-- When the loaded snapshot document does not equal the string
warning, handle_failure dispatches the migration strategy for TG1 and
the failure notification strategy otherwise. -/
theorem handle_failure_doc (server_name check_name check_type : String) (doc : JVal)
    (hdoc : jvalEqStr doc "warning" = false) :
    handle_failure (some doc) server_name check_name check_type =
      .ok ((if server_name = "TG1" then Strategy.moveServices else Strategy.notifyFailure),
        .failure server_name check_name check_type) := by
  unfold handle_failure get_strategy
  dsimp only
  rw [hdoc]
  by_cases hsn : server_name = "TG1" <;> simp [hsn]

/-- C1: for a recognised check run against a well-formed snapshot
document, the classification of run_check is: for a type not among
cpu, ram and disk_space, a failure escalation is dispatched exactly
when check() is False, and a warning escalation exactly when check()
is True and response_time() is at least response_time_limit; for the
resource types, check() is always True, no failure escalation is ever
dispatched, and a warning escalation is dispatched exactly when
response_time() is at least resourse_limits[check name]. -/
theorem C1_classification (cfg : Config) (w : World) (agg : Aggregate) (doc : JVal)
    (server : ServerConfig) (check : CheckConfig) (m : Monitor)
    (hm : monitorFor server check = some m)
    (hdoc : jvalEqStr doc "warning" = false) :
    (pyIn check.type "cpu ram disk_space" = false →
      ((dispatchesFailure (run_check agg (some doc) cfg w server check) = true ↔ m.check w = false)
       ∧ (dispatchesWarning (run_check agg (some doc) cfg w server check) = true ↔
           (m.check w = true ∧ cfg.response_time_limit ≤ m.response_time w))))
    ∧ (pyIn check.type "cpu ram disk_space" = true →
      (m.check w = true
       ∧ dispatchesFailure (run_check agg (some doc) cfg w server check) = false
       ∧ ∀ lim : Rat, alistGet cfg.resourse_limits check.name = some lim →
           (dispatchesWarning (run_check agg (some doc) cfg w server check) = true ↔
             lim ≤ m.response_time w))) := by
  have hd := run_check_dispatched_char agg (some doc) cfg w server check m hm
  rw [handle_failure_doc server.name check.name check.type doc hdoc] at hd
  constructor
  · intro hnr
    simp only [hnr, if_true, eq_self_iff_true] at hd
    cases hc : m.check w with
    | false =>
      rw [hc] at hd
      simp only [if_true, eq_self_iff_true] at hd
      constructor
      · simp [dispatchesFailure, hd]
      · simp [dispatchesWarning, hd]
    | true =>
      rw [hc] at hd
      by_cases hrt : cfg.response_time_limit ≤ m.response_time w
      · simp only [hrt, if_true, Bool.true_eq_false, if_false] at hd
        constructor
        · simp [dispatchesFailure, hd, handle_warning]
        · simp [dispatchesWarning, hd, handle_warning, hrt]
      · simp only [hrt, Bool.true_eq_false, if_false] at hd
        constructor
        · simp [dispatchesFailure, hd]
        · simp [dispatchesWarning, hd, hrt]
  · intro hres
    have hcheck : m.check w = true := by
      rcases monitorFor_cases hm with ⟨h, _⟩ | ⟨h, _⟩ | ⟨h, _⟩ | ⟨h, hm2⟩ | ⟨h, hm2⟩ | ⟨h, hm2⟩
      · rw [h] at hres; exact absurd hres (by decide)
      · rw [h] at hres; exact absurd hres (by decide)
      · rw [h] at hres; exact absurd hres (by decide)
      · rw [hm2]; rfl
      · rw [hm2]; rfl
      · rw [hm2]; rfl
    simp only [hres, Bool.true_eq_false, if_false] at hd
    refine ⟨hcheck, ?_, fun lim hlim => ?_⟩
    · cases hl : alistGet cfg.resourse_limits check.name with
      | none => rw [hl] at hd; simp [dispatchesFailure, hd]
      | some lim =>
        rw [hl] at hd
        by_cases hrt : lim ≤ m.response_time w <;>
          simp [dispatchesFailure, hd, hrt, handle_warning]
    · rw [hlim] at hd
      by_cases hrt : lim ≤ m.response_time w <;>
        simp [dispatchesWarning, hd, hrt, handle_warning]

/-- C1 witness: a failing ping check dispatches a failure escalation;
a RAM check reading 92 percent against an 80 percent limit dispatches
a warning escalation and no failure escalation. -/
theorem C1_classification_witness :
    monitorFor sampleServer samplePingCheck = some (Monitor.serverPing "10.0.0.5")
    ∧ jvalEqStr (JVal.obj []) "warning" = false
    ∧ dispatchesFailure
        (run_check [] (some (.obj [])) sampleCfg quietWorld sampleServer samplePingCheck) = true
    ∧ monitorFor sampleServer sampleRamCheck = some Monitor.ram
    ∧ dispatchesFailure
        (run_check [] (some (.obj [])) sampleCfg ramWorld sampleServer sampleRamCheck) = false
    ∧ dispatchesWarning
        (run_check [] (some (.obj [])) sampleCfg ramWorld sampleServer sampleRamCheck) = true :=
  ⟨by decide, by decide,
   ((C1_classification sampleCfg quietWorld [] (.obj []) sampleServer samplePingCheck
     (Monitor.serverPing "10.0.0.5") (by decide) (by decide)).1 (by decide)).1.mpr (by decide),
   by decide,
   ((C1_classification sampleCfg ramWorld [] (.obj []) sampleServer sampleRamCheck
     Monitor.ram (by decide) (by decide)).2 (by decide)).2.1,
   (((C1_classification sampleCfg ramWorld [] (.obj []) sampleServer sampleRamCheck
     Monitor.ram (by decide) (by decide)).2 (by decide)).2.2 80 (by decide)).mpr (by decide)⟩

/-- C10 witness: a failing ping check with no snapshot file. -/
theorem C10_missing_snapshot_witness :
    monitorFor sampleServer samplePingCheck = some (Monitor.serverPing "10.0.0.5")
    ∧ pyIn samplePingCheck.type "cpu ram disk_space" = false
    ∧ (Monitor.serverPing "10.0.0.5").check quietWorld = false
    ∧ (run_check [] none sampleCfg quietWorld sampleServer samplePingCheck).dispatched = []
    ∧ (run_check [] none sampleCfg quietWorld sampleServer samplePingCheck).caught =
        some (PyError.fileNotFound aggregatePath) :=
  ⟨by decide, by decide, by decide,
   (C10_missing_snapshot sampleCfg quietWorld [] sampleServer samplePingCheck
     (Monitor.serverPing "10.0.0.5") (by decide) (by decide) (by decide)).2.2.1,
   (C10_missing_snapshot sampleCfg quietWorld [] sampleServer samplePingCheck
     (Monitor.serverPing "10.0.0.5") (by decide) (by decide) (by decide)).2.2.2⟩

end AdpKpi
